import Mathlib

/-!
Verification of the MONAI regression-metric core (`monai/metrics/regression.py`)
and its iteration-adapter handlers (`monai/handlers/regression_metrics.py`).

Tensors are modelled as a shape (list of dimension sizes) together with a flat
row-major data list of rationals (torch float tensors, modelled exactly over ℚ;
square roots and logarithms land in ℝ, and the IEEE extended values produced by
`torch.log10` at zero land in `EReal`).  Division by zero in ℚ yields 0, so the
mean of an empty slice is 0 here where torch would produce NaN.
-/

/-- A tensor: a shape (list of dimension sizes, leading batch dimension) and a
flat row-major data list. -/
structure Tensor where
  shape : List ℕ
  data : List ℚ
deriving DecidableEq, Repr

/-- Well-formedness: the flat data has exactly as many entries as the shape
prescribes. -/
def Tensor.wf (t : Tensor) : Prop := t.data.length = t.shape.prod

/-- Elementwise subtraction `a - b` (torch `-` on same-shaped tensors); the
result keeps the left operand's shape. -/
def Tensor.sub (a b : Tensor) : Tensor :=
  ⟨a.shape, List.zipWith (fun x y => x - y) a.data b.data⟩

/-- Elementwise application of a scalar function (torch elementwise ops). -/
def Tensor.emap (f : ℚ → ℚ) (t : Tensor) : Tensor :=
  ⟨t.shape, t.data.map f⟩

/-- torch.flatten with start_dim=1: collapse all non-batch dimensions into one;
row-major data is unchanged. -/
def Tensor.flatten1 (t : Tensor) : Tensor :=
  ⟨[t.shape.headD 0, t.shape.tail.prod], t.data⟩

/-- torch.mean along the last dimension with keepdim=True on a row-major
tensor: each slice of length `m` (the last dimension) is averaged. -/
def Tensor.meanLastKeepdim (t : Tensor) : Tensor :=
  ⟨t.shape.dropLast ++ [1],
   (List.range t.shape.dropLast.prod).map
     (fun i =>
       ((List.range (t.shape.getLastD 0)).map
         (fun j => t.data.getD (i * t.shape.getLastD 0 + j) 0)).sum
         / (t.shape.getLastD 0 : ℚ))⟩

/-- `compute_mean_error_metrics(y_pred, y, func)`: flatten `func(y - y_pred)`
from dim 1 and take the mean over the last dimension with keepdim, yielding a
batch-by-1 tensor of per-sample mean errors. -/
def compute_mean_error_metrics (y_pred y : Tensor) (func : ℚ → ℚ) : Tensor :=
  Tensor.meanLastKeepdim (Tensor.flatten1 (Tensor.emap func (Tensor.sub y y_pred)))

/-- The error taxonomy of `RegressionMetric._check_shape`: a shape mismatch
between `y_pred` and `y`, or fewer than two dimensions. -/
inductive RegressionError where
  | ShapeMismatch
  | InsufficientDimensions
deriving DecidableEq, Repr

/-- `RegressionMetric._check_shape`: first compare the shapes, then require at
least one non-batch dimension (ndim >= 2). -/
def check_shape (y_pred y : Tensor) : Except RegressionError Unit :=
  if y_pred.shape ≠ y.shape then .error .ShapeMismatch
  else if y_pred.shape.length < 2 then .error .InsufficientDimensions
  else .ok ()

/-- The squared-error function `partial(torch.pow, exponent=2.0)` of MSEMetric,
RMSEMetric and PSNRMetric. -/
def sq_func (d : ℚ) : ℚ := d ^ 2

/-- The absolute-error function `torch.abs` of MAEMetric. -/
def abs_func (d : ℚ) : ℚ := |d|

/-- `MSEMetric._compute_metric`: per-sample mean of squared differences. -/
def MSEMetric.compute_metric (y_pred y : Tensor) : Tensor :=
  compute_mean_error_metrics y_pred y sq_func

/-- `MAEMetric._compute_metric`: per-sample mean of absolute differences. -/
def MAEMetric.compute_metric (y_pred y : Tensor) : Tensor :=
  compute_mean_error_metrics y_pred y abs_func

/-- `RMSEMetric._compute_metric`: `torch.sqrt` applied elementwise to the
per-sample MSE tensor; the values are real numbers. -/
noncomputable def RMSEMetric.compute_metric (y_pred y : Tensor) : List ℝ :=
  (compute_mean_error_metrics y_pred y sq_func).data.map
    (fun m : ℚ => Real.sqrt ((m : ℚ) : ℝ))

/-- Base-10 logarithm on the reals (`math.log10` and the finite branch of
`torch.log10`). -/
noncomputable def log10 (x : ℝ) : ℝ := Real.log x / Real.log 10

/-- `torch.log10` under IEEE semantics on the nonnegative inputs produced by a
squared-error mean: log10 of zero is negative infinity, and of a positive value
its real base-10 logarithm. -/
noncomputable def ieeeLog10 (m : ℚ) : EReal :=
  if m = 0 then ⊥ else ((log10 (m : ℝ) : ℝ) : EReal)

/-- `PSNRMetric._compute_metric`: `20 * math.log10(max_val) - 10 *
torch.log10(mse_out)` per sample, with IEEE extended-real semantics. -/
noncomputable def PSNRMetric.compute_metric (maxVal : ℚ) (y_pred y : Tensor) :
    List EReal :=
  (compute_mean_error_metrics y_pred y sq_func).data.map
    (fun m => ((20 * log10 (maxVal : ℝ) : ℝ) : EReal) - ((10 : ℝ) : EReal) * ieeeLog10 m)

/-- The reduction modes of `monai.utils.MetricReduction`. -/
inductive MetricReduction where
  | NONE
  | MEAN
  | SUM
  | MEAN_BATCH
  | SUM_BATCH
  | MEAN_CHANNEL
  | SUM_CHANNEL
deriving DecidableEq, Repr

/-- Modelled from the spec: `do_metric_reduction` (monai.metrics.utils, not
among the sources) applied to a 2-D batch-by-channel tensor of per-sample
values.  `none` returns the input unchanged with a not-NaN count of 1 per
element; `mean`/`sum` reduce over all elements to a scalar; the batch modes
reduce only the batch dimension, keeping the channel dimension; the channel
modes reduce only the channel dimension, keeping the batch dimension.
Rationals carry no NaN, so every element counts as non-NaN. -/
def do_metric_reduction (f : Tensor) (r : MetricReduction) : Tensor × Tensor :=
  match r with
  | .NONE => (f, ⟨f.shape, f.data.map (fun _ => 1)⟩)
  | .MEAN => (⟨[], [f.data.sum / (f.data.length : ℚ)]⟩, ⟨[], [(f.data.length : ℚ)]⟩)
  | .SUM => (⟨[], [f.data.sum]⟩, ⟨[], [(f.data.length : ℚ)]⟩)
  | .MEAN_BATCH =>
      (⟨f.shape.tail,
        (List.range f.shape.tail.prod).map
          (fun j =>
            ((List.range (f.shape.headD 0)).map
              (fun i => f.data.getD (i * f.shape.tail.prod + j) 0)).sum
              / (f.shape.headD 0 : ℚ))⟩,
       ⟨f.shape.tail, (List.range f.shape.tail.prod).map (fun _ => (f.shape.headD 0 : ℚ))⟩)
  | .SUM_BATCH =>
      (⟨f.shape.tail,
        (List.range f.shape.tail.prod).map
          (fun j =>
            ((List.range (f.shape.headD 0)).map
              (fun i => f.data.getD (i * f.shape.tail.prod + j) 0)).sum)⟩,
       ⟨f.shape.tail, (List.range f.shape.tail.prod).map (fun _ => (f.shape.headD 0 : ℚ))⟩)
  | .MEAN_CHANNEL =>
      (⟨[f.shape.headD 0],
        (List.range (f.shape.headD 0)).map
          (fun i =>
            ((List.range f.shape.tail.prod).map
              (fun j => f.data.getD (i * f.shape.tail.prod + j) 0)).sum
              / (f.shape.tail.prod : ℚ))⟩,
       ⟨[f.shape.headD 0], (List.range (f.shape.headD 0)).map (fun _ => (f.shape.tail.prod : ℚ))⟩)
  | .SUM_CHANNEL =>
      (⟨[f.shape.headD 0],
        (List.range (f.shape.headD 0)).map
          (fun i =>
            ((List.range f.shape.tail.prod).map
              (fun j => f.data.getD (i * f.shape.tail.prod + j) 0)).sum)⟩,
       ⟨[f.shape.headD 0], (List.range (f.shape.headD 0)).map (fun _ => (f.shape.tail.prod : ℚ))⟩)

/-- `MSEMetric.__call__`: validate the shapes, compute the per-sample metric,
then apply the configured batch reduction, returning the reduced tensor with
its not-NaN count. -/
def MSEMetric.call (reduction : MetricReduction) (y_pred y : Tensor) :
    Except RegressionError (Tensor × Tensor) :=
  match check_shape y_pred y with
  | .error e => .error e
  | .ok _ => .ok (do_metric_reduction (MSEMetric.compute_metric y_pred y) reduction)

/-- `MAEMetric.__call__`: validate, compute, reduce. -/
def MAEMetric.call (reduction : MetricReduction) (y_pred y : Tensor) :
    Except RegressionError (Tensor × Tensor) :=
  match check_shape y_pred y with
  | .error e => .error e
  | .ok _ => .ok (do_metric_reduction (MAEMetric.compute_metric y_pred y) reduction)

/-- Modelled from the spec: `do_metric_reduction` (monai.metrics.utils, not
among the sources) restricted to the batch-by-1 column of per-sample real
values produced by RMSEMetric: with one channel per row, the channel modes act
as the identity and the batch modes coincide with full reduction. -/
noncomputable def reduce_real_column (l : List ℝ) (r : MetricReduction) :
    List ℝ × List ℚ :=
  match r with
  | .NONE => (l, l.map (fun _ => 1))
  | .MEAN => ([l.sum / (l.length : ℝ)], [(l.length : ℚ)])
  | .SUM => ([l.sum], [(l.length : ℚ)])
  | .MEAN_BATCH => ([l.sum / (l.length : ℝ)], [(l.length : ℚ)])
  | .SUM_BATCH => ([l.sum], [(l.length : ℚ)])
  | .MEAN_CHANNEL => (l, l.map (fun _ => 1))
  | .SUM_CHANNEL => (l, l.map (fun _ => 1))

/-- `RMSEMetric.__call__`: validate, compute, reduce. -/
noncomputable def RMSEMetric.call (reduction : MetricReduction) (y_pred y : Tensor) :
    Except RegressionError (List ℝ × List ℚ) :=
  match check_shape y_pred y with
  | .error e => .error e
  | .ok _ => .ok (reduce_real_column (RMSEMetric.compute_metric y_pred y) reduction)

/-- Modelled from the spec: `do_metric_reduction` (monai.metrics.utils, not
among the sources) restricted to the batch-by-1 column of per-sample extended
real values produced by PSNRMetric; the mean multiplies the sum by the inverse
of the element count, so an infinite per-sample value propagates as in IEEE
arithmetic. -/
noncomputable def reduce_ereal_column (l : List EReal) (r : MetricReduction) :
    List EReal × List ℚ :=
  match r with
  | .NONE => (l, l.map (fun _ => 1))
  | .MEAN => ([l.sum * (((l.length : ℝ)⁻¹ : ℝ) : EReal)], [(l.length : ℚ)])
  | .SUM => ([l.sum], [(l.length : ℚ)])
  | .MEAN_BATCH => ([l.sum * (((l.length : ℝ)⁻¹ : ℝ) : EReal)], [(l.length : ℚ)])
  | .SUM_BATCH => ([l.sum], [(l.length : ℚ)])
  | .MEAN_CHANNEL => (l, l.map (fun _ => 1))
  | .SUM_CHANNEL => (l, l.map (fun _ => 1))

/-- `PSNRMetric.__call__`: validate, compute, reduce. -/
noncomputable def PSNRMetric.call (maxVal : ℚ) (reduction : MetricReduction)
    (y_pred y : Tensor) : Except RegressionError (List EReal × List ℚ) :=
  match check_shape y_pred y with
  | .error e => .error e
  | .ok _ => .ok (reduce_ereal_column (PSNRMetric.compute_metric maxVal y_pred y) reduction)

/-- An iteration-adapter handler: the reduction mode its underlying metric was
constructed with, the metric call, and the user-supplied transform extracting
the (y_pred, y) pair from the engine's iteration output. -/
structure IterationHandler (ω ρ : Type) where
  metricReduction : MetricReduction
  metric_fn : Tensor → Tensor → Except RegressionError ρ
  output_transform : ω → Tensor × Tensor

/-- Modelled from the spec: the per-iteration step of `IterationMetric`
(monai.handlers.iteration_metric, not among the sources): extract (y_pred, y)
from the engine output via the transform, call the metric, and append the
returned tensor to the running sequence of accumulated results. -/
def IterationHandler.step {ω ρ : Type} (h : IterationHandler ω ρ)
    (acc : List ρ) (out : ω) : Except RegressionError (List ρ) :=
  match h.metric_fn (h.output_transform out).1 (h.output_transform out).2 with
  | .error e => .error e
  | .ok v => .ok (acc ++ [v])

/-- `MeanSquaredError.__init__`: wraps `MSEMetric(reduction=MetricReduction.NONE)`. -/
def MeanSquaredError.handler {ω : Type} (output_transform : ω → Tensor × Tensor) :
    IterationHandler ω (Tensor × Tensor) :=
  ⟨.NONE, MSEMetric.call .NONE, output_transform⟩

/-- `MeanAbsoluteError.__init__`: wraps `MAEMetric(reduction=MetricReduction.NONE)`. -/
def MeanAbsoluteError.handler {ω : Type} (output_transform : ω → Tensor × Tensor) :
    IterationHandler ω (Tensor × Tensor) :=
  ⟨.NONE, MAEMetric.call .NONE, output_transform⟩

/-- `RootMeanSquaredError.__init__`: wraps `RMSEMetric(reduction=MetricReduction.NONE)`. -/
noncomputable def RootMeanSquaredError.handler {ω : Type}
    (output_transform : ω → Tensor × Tensor) :
    IterationHandler ω (List ℝ × List ℚ) :=
  ⟨.NONE, RMSEMetric.call .NONE, output_transform⟩

/-- `PeakSignalToNoiseRatio.__init__`: wraps
`PSNRMetric(max_val=max_val, reduction=MetricReduction.NONE)`. -/
noncomputable def PeakSignalToNoiseRatio.handler {ω : Type} (maxVal : ℚ)
    (output_transform : ω → Tensor × Tensor) :
    IterationHandler ω (List EReal × List ℚ) :=
  ⟨.NONE, PSNRMetric.call maxVal .NONE, output_transform⟩

/-- The module-level names defined by `monai/metrics/regression.py`. -/
def regression_module_defs : List String :=
  ["RegressionMetric", "MSEMetric", "MAEMetric", "RMSEMetric", "PSNRMetric",
   "compute_mean_error_metrics"]

/-- The names that `monai/handlers/regression_metrics.py` imports from
`monai.metrics.regression` on its line 17. -/
def handlers_imported_names : List String :=
  ["MAEMetric", "MSEMetric", "PSNRMetric", "RMSEMetric",
   "MSEMetricTraining", "MAEMetricTraining"]

/-- Python from-import semantics: the import statement succeeds exactly when
every requested name is defined in the source module; otherwise module loading
aborts with an ImportError before any later statement runs. -/
def handlers_module_loads : Bool :=
  handlers_imported_names.all (fun n => regression_module_defs.contains n)

/-- The handler classes the adapter module would define, available only if the
module loads: its class statements all come after the failing import. -/
def handlers_defined_classes : List String :=
  if handlers_module_loads then
    ["MeanSquaredError", "MeanSquaredErrorTraining", "MeanAbsoluteError",
     "MeanAbsoluteErrorTraining", "RootMeanSquaredError", "PeakSignalToNoiseRatio"]
  else []

example :
    MSEMetric.compute_metric ⟨[1,1,2,2], [1,1,1,1]⟩ ⟨[1,1,2,2], [3,3,3,3]⟩
      = ⟨[1,1], [4]⟩ := by
  simp [MSEMetric.compute_metric, compute_mean_error_metrics, Tensor.meanLastKeepdim,
    Tensor.flatten1, Tensor.emap, Tensor.sub, sq_func, List.range_succ, List.getD]
  norm_num

example :
    MAEMetric.compute_metric ⟨[1,1,2,2], [1,1,1,1]⟩ ⟨[1,1,2,2], [3,3,3,3]⟩
      = ⟨[1,1], [2]⟩ := by
  simp [MAEMetric.compute_metric, compute_mean_error_metrics, Tensor.meanLastKeepdim,
    Tensor.flatten1, Tensor.emap, Tensor.sub, abs_func, List.range_succ, List.getD]
  norm_num

example :
    check_shape ⟨[2,3,4], List.replicate 24 0⟩ ⟨[2,3,5], List.replicate 30 0⟩
      = .error .ShapeMismatch := by rfl

example :
    check_shape ⟨[4], [0,0,0,0]⟩ ⟨[4], [0,0,0,0]⟩
      = .error .InsufficientDimensions := by rfl

/-- Indexing a map over `List.range` at an in-range index yields the mapped
function applied to the index. -/
theorem getD_range_map {α : Type} (g : ℕ → α) (d : α) {b i : ℕ} (hi : i < b) :
    ((List.range b).map g).getD i d = g i := by
  rw [List.getD_eq_getElem _ _ (by simpa using hi)]
  simp

/-- Entries of `func(y - y_pred)` at an in-range flat index. -/
theorem emap_sub_getD (f : ℚ → ℚ) (p y : Tensor) {k : ℕ}
    (hk1 : k < y.data.length) (hk2 : k < p.data.length) :
    (Tensor.emap f (Tensor.sub y p)).data.getD k 0
      = f (y.data.getD k 0 - p.data.getD k 0) := by
  have hk : k < ((Tensor.emap f (Tensor.sub y p)).data).length := by
    simp [Tensor.emap, Tensor.sub, List.length_zipWith]
    omega
  rw [List.getD_eq_getElem _ _ hk]
  simp only [Tensor.emap, Tensor.sub, List.getElem_map, List.getElem_zipWith]
  rw [List.getD_eq_getElem _ _ hk1, List.getD_eq_getElem _ _ hk2]

/-- The per-sample slice of `meanLastKeepdim` on a two-dimensional tensor is
the mean of the corresponding row. -/
theorem meanLastKeepdim_two (b n : ℕ) (d : List ℚ) {i : ℕ} (hi : i < b) :
    (Tensor.meanLastKeepdim ⟨[b, n], d⟩).data.getD i 0
      = ((List.range n).map (fun j => d.getD (i * n + j) 0)).sum / (n : ℚ) := by
  have hb : ([b, n] : List ℕ).dropLast.prod = b := by simp
  have hl : ([b, n] : List ℕ).getLastD 0 = n := rfl
  simp only [Tensor.meanLastKeepdim, hb, hl]
  exact getD_range_map _ _ hi

/-- Closed form of `compute_mean_error_metrics` at batch index `i`: the mean of
`func` applied to the differences over the non-batch elements of sample `i`. -/
theorem compute_mean_error_getD (p y : Tensor) (f : ℚ → ℚ) {i : ℕ}
    (hsh : p.shape = y.shape) (hwp : p.wf) (hwy : y.wf)
    (hi : i < y.shape.headD 0) :
    (compute_mean_error_metrics p y f).data.getD i 0
      = ((List.range y.shape.tail.prod).map
          (fun j => f (y.data.getD (i * y.shape.tail.prod + j) 0
                       - p.data.getD (i * y.shape.tail.prod + j) 0))).sum
        / (y.shape.tail.prod : ℚ) := by
  obtain ⟨s, t, hys⟩ : ∃ s t, y.shape = s :: t := by
    cases hys : y.shape with
    | nil => rw [hys] at hi; simp at hi
    | cons s t => exact ⟨s, t, rfl⟩
  have hcme : compute_mean_error_metrics p y f
      = Tensor.meanLastKeepdim
          ⟨[y.shape.headD 0, y.shape.tail.prod],
           (Tensor.emap f (Tensor.sub y p)).data⟩ := rfl
  rw [hcme, meanLastKeepdim_two _ _ _ hi]
  congr 1
  congr 1
  apply List.map_congr_left
  intro j hj
  have hjn : j < y.shape.tail.prod := List.mem_range.mp hj
  have hbound : i * y.shape.tail.prod + j < y.shape.prod := by
    rw [hys] at hi hjn ⊢
    simp only [List.headD] at hi
    simp only [List.tail_cons] at hjn ⊢
    calc i * t.prod + j < i * t.prod + t.prod := by omega
    _ = (i + 1) * t.prod := by ring
    _ ≤ s * t.prod := Nat.mul_le_mul_right _ hi
    _ = (s :: t).prod := by rw [List.prod_cons]
  exact emap_sub_getD f p y (by rw [hwy]; exact hbound)
    (by rw [hwp, hsh]; exact hbound)

/-- Every entry of a list of zeros reads back as zero under `getD` with
default zero. -/
theorem getD_zero_of_all_zero {l : List ℚ} (h : ∀ x ∈ l, x = (0 : ℚ)) (i : ℕ) :
    l.getD i 0 = 0 := by
  by_cases hi : i < l.length
  · rw [List.getD_eq_getElem _ _ hi]
    exact h _ (List.getElem_mem hi)
  · exact List.getD_eq_default _ _ (by omega)

/-- With identical prediction and target and an error function vanishing at
zero, every per-sample mean error is zero. -/
theorem compute_mean_error_self (p : Tensor) (f : ℚ → ℚ) (hf : f 0 = 0) (i : ℕ) :
    (compute_mean_error_metrics p p f).data.getD i 0 = 0 := by
  have hzero : ∀ k : ℕ,
      (Tensor.flatten1 (Tensor.emap f (Tensor.sub p p))).data.getD k 0 = 0 := by
    intro k
    apply getD_zero_of_all_zero
    intro z hz
    simp only [Tensor.flatten1, Tensor.emap, Tensor.sub, List.zipWith_same,
      List.map_map, List.mem_map] at hz
    obtain ⟨w, _, hwz⟩ := hz
    simp only [Function.comp_apply, sub_self, hf] at hwz
    exact hwz.symm
  apply getD_zero_of_all_zero
  intro x hx
  simp only [compute_mean_error_metrics, Tensor.meanLastKeepdim, List.mem_map] at hx
  obtain ⟨a, _, hax⟩ := hx
  rw [← hax]
  rw [List.sum_eq_zero]
  · exact zero_div _
  · intro y hy
    obtain ⟨j, _, hjy⟩ := List.mem_map.mp hy
    rw [← hjy]
    exact hzero _

/-- Mapping an error function invariant under argument swap over elementwise
differences is symmetric in the two lists. -/
theorem map_sub_swap (f : ℚ → ℚ) (hf : ∀ a b : ℚ, f (a - b) = f (b - a)) :
    ∀ (l1 l2 : List ℚ),
      (List.zipWith (fun x y => x - y) l1 l2).map f
        = (List.zipWith (fun x y => x - y) l2 l1).map f
  | [], l2 => by simp
  | l1, [] => by simp
  | a :: l1, b :: l2 => by
    simp only [List.zipWith_cons_cons, List.map_cons]
    rw [hf, map_sub_swap f hf l1 l2]

/-- `compute_mean_error_metrics` is symmetric in prediction and target whenever
the error function is invariant under argument swap and the shapes agree. -/
theorem compute_mean_error_symm (p y : Tensor) (f : ℚ → ℚ)
    (hf : ∀ a b : ℚ, f (a - b) = f (b - a)) (hsh : p.shape = y.shape) :
    compute_mean_error_metrics p y f = compute_mean_error_metrics y p f := by
  unfold compute_mean_error_metrics
  congr 1
  simp only [Tensor.flatten1, Tensor.emap, Tensor.sub, Tensor.mk.injEq]
  exact ⟨by rw [hsh], map_sub_swap f hf y.data p.data⟩

/-- A successful shape check: equal shapes with at least two dimensions. -/
theorem check_shape_ok (p y : Tensor) (hsh : p.shape = y.shape)
    (hdim : 2 ≤ p.shape.length) : check_shape p y = .ok () := by
  unfold check_shape
  rw [if_neg (by simp [hsh]), if_neg (by omega)]

/-- C1: calling any of the four regression metrics (MSE, MAE, RMSE, PSNR)
returns a ShapeMismatch error when the shapes of y_pred and y differ, and an
InsufficientDimensions error when the equal shapes have fewer than two
dimensions; the call yields the error and no metric value. -/
theorem C1_validation_errors (p y : Tensor) (r : MetricReduction) (maxVal : ℚ) :
    (p.shape ≠ y.shape →
      MSEMetric.call r p y = .error .ShapeMismatch ∧
      MAEMetric.call r p y = .error .ShapeMismatch ∧
      RMSEMetric.call r p y = .error .ShapeMismatch ∧
      PSNRMetric.call maxVal r p y = .error .ShapeMismatch) ∧
    (p.shape = y.shape → p.shape.length < 2 →
      MSEMetric.call r p y = .error .InsufficientDimensions ∧
      MAEMetric.call r p y = .error .InsufficientDimensions ∧
      RMSEMetric.call r p y = .error .InsufficientDimensions ∧
      PSNRMetric.call maxVal r p y = .error .InsufficientDimensions) := by
  constructor
  · intro h
    have hc : check_shape p y = .error .ShapeMismatch := by
      unfold check_shape
      rw [if_pos h]
    exact ⟨by simp [MSEMetric.call, hc], by simp [MAEMetric.call, hc],
      by simp [RMSEMetric.call, hc], by simp [PSNRMetric.call, hc]⟩
  · intro h1 h2
    have hc : check_shape p y = .error .InsufficientDimensions := by
      unfold check_shape
      rw [if_neg (by simp [h1]), if_pos h2]
    exact ⟨by simp [MSEMetric.call, hc], by simp [MAEMetric.call, hc],
      by simp [RMSEMetric.call, hc], by simp [PSNRMetric.call, hc]⟩

/-- Witness for C1: a shape-(2,3,4)/(2,3,5) mismatch yields ShapeMismatch, and
equal one-dimensional shapes (4,) yield InsufficientDimensions. -/
theorem C1_validation_errors_witness :
    (MSEMetric.call .MEAN ⟨[2,3,4], List.replicate 24 0⟩ ⟨[2,3,5], List.replicate 30 0⟩
        = .error .ShapeMismatch ∧
      MAEMetric.call .MEAN ⟨[2,3,4], List.replicate 24 0⟩ ⟨[2,3,5], List.replicate 30 0⟩
        = .error .ShapeMismatch ∧
      RMSEMetric.call .MEAN ⟨[2,3,4], List.replicate 24 0⟩ ⟨[2,3,5], List.replicate 30 0⟩
        = .error .ShapeMismatch ∧
      PSNRMetric.call 255 .MEAN ⟨[2,3,4], List.replicate 24 0⟩ ⟨[2,3,5], List.replicate 30 0⟩
        = .error .ShapeMismatch) ∧
    (MSEMetric.call .MEAN ⟨[4], [0,0,0,0]⟩ ⟨[4], [0,0,0,0]⟩
        = .error .InsufficientDimensions ∧
      MAEMetric.call .MEAN ⟨[4], [0,0,0,0]⟩ ⟨[4], [0,0,0,0]⟩
        = .error .InsufficientDimensions ∧
      RMSEMetric.call .MEAN ⟨[4], [0,0,0,0]⟩ ⟨[4], [0,0,0,0]⟩
        = .error .InsufficientDimensions ∧
      PSNRMetric.call 255 .MEAN ⟨[4], [0,0,0,0]⟩ ⟨[4], [0,0,0,0]⟩
        = .error .InsufficientDimensions) :=
  ⟨(C1_validation_errors ⟨[2,3,4], List.replicate 24 0⟩ ⟨[2,3,5], List.replicate 30 0⟩
      .MEAN 255).1 (by decide),
   (C1_validation_errors ⟨[4], [0,0,0,0]⟩ ⟨[4], [0,0,0,0]⟩ .MEAN 255).2 rfl (by decide)⟩

/-- C10: when the shapes differ and both have fewer than two dimensions, the
error raised is ShapeMismatch, not InsufficientDimensions: the shape equality
is checked first, in the shared check and hence in every metric call. -/
theorem C10_shape_mismatch_wins (p y : Tensor) (r : MetricReduction) (maxVal : ℚ)
    (hsh : p.shape ≠ y.shape) (_hp : p.shape.length < 2) (_hy : y.shape.length < 2) :
    check_shape p y = .error .ShapeMismatch ∧
    MSEMetric.call r p y = .error .ShapeMismatch ∧
    MAEMetric.call r p y = .error .ShapeMismatch ∧
    RMSEMetric.call r p y = .error .ShapeMismatch ∧
    PSNRMetric.call maxVal r p y = .error .ShapeMismatch := by
  have hc : check_shape p y = .error .ShapeMismatch := by
    unfold check_shape
    rw [if_pos hsh]
  exact ⟨hc, by simp [MSEMetric.call, hc], by simp [MAEMetric.call, hc],
    by simp [RMSEMetric.call, hc], by simp [PSNRMetric.call, hc]⟩

/-- Witness for C10: shapes (2,) and (3,), both one-dimensional. -/
theorem C10_shape_mismatch_wins_witness :
    check_shape ⟨[2], [0,0]⟩ ⟨[3], [0,0,0]⟩ = .error .ShapeMismatch ∧
    MSEMetric.call .MEAN ⟨[2], [0,0]⟩ ⟨[3], [0,0,0]⟩ = .error .ShapeMismatch ∧
    MAEMetric.call .MEAN ⟨[2], [0,0]⟩ ⟨[3], [0,0,0]⟩ = .error .ShapeMismatch ∧
    RMSEMetric.call .MEAN ⟨[2], [0,0]⟩ ⟨[3], [0,0,0]⟩ = .error .ShapeMismatch ∧
    PSNRMetric.call 255 .MEAN ⟨[2], [0,0]⟩ ⟨[3], [0,0,0]⟩ = .error .ShapeMismatch :=
  C10_shape_mismatch_wins ⟨[2], [0,0]⟩ ⟨[3], [0,0,0]⟩ .MEAN 255
    (by decide) (by decide) (by decide)

/-- C2: for equal-shaped well-formed tensors with at least two dimensions and
any elementwise error function, the shared per-sample computation returns a
batch-by-1 tensor whose entry for each batch element is the mean of the error
function applied to (Y - P) over all non-batch elements of that sample. -/
theorem C2_per_sample_mean (p y : Tensor) (f : ℚ → ℚ)
    (hsh : p.shape = y.shape) (hwp : p.wf) (hwy : y.wf)
    (_hdim : 2 ≤ y.shape.length) :
    (compute_mean_error_metrics p y f).shape = [y.shape.headD 0, 1] ∧
    (compute_mean_error_metrics p y f).data.length = y.shape.headD 0 ∧
    ∀ i < y.shape.headD 0,
      (compute_mean_error_metrics p y f).data.getD i 0
        = ((List.range y.shape.tail.prod).map
            (fun j => f (y.data.getD (i * y.shape.tail.prod + j) 0
                         - p.data.getD (i * y.shape.tail.prod + j) 0))).sum
          / (y.shape.tail.prod : ℚ) := by
  refine ⟨rfl, by simp [compute_mean_error_metrics, Tensor.meanLastKeepdim,
    Tensor.flatten1, Tensor.emap, Tensor.sub], ?_⟩
  intro i hi
  exact compute_mean_error_getD p y f hsh hwp hwy hi

/-- Witness for C2: the concrete pair of constant (1,1,2,2) tensors with the
squared-difference error function. -/
theorem C2_per_sample_mean_witness :
    (compute_mean_error_metrics ⟨[1,1,2,2], [1,1,1,1]⟩ ⟨[1,1,2,2], [3,3,3,3]⟩
        sq_func).shape = [1, 1] ∧
    (compute_mean_error_metrics ⟨[1,1,2,2], [1,1,1,1]⟩ ⟨[1,1,2,2], [3,3,3,3]⟩
        sq_func).data.length = 1 ∧
    ∀ i < 1,
      (compute_mean_error_metrics ⟨[1,1,2,2], [1,1,1,1]⟩ ⟨[1,1,2,2], [3,3,3,3]⟩
          sq_func).data.getD i 0
        = ((List.range 4).map
            (fun j => sq_func (([(3:ℚ),3,3,3]).getD (i * 4 + j) 0
                         - ([(1:ℚ),1,1,1]).getD (i * 4 + j) 0))).sum / (4 : ℚ) :=
  C2_per_sample_mean ⟨[1,1,2,2], [1,1,1,1]⟩ ⟨[1,1,2,2], [3,3,3,3]⟩ sq_func
    rfl rfl rfl (by decide)

/-- C3: the RMSE per-sample value is the square root of the MSE per-sample
value on the same inputs, element for element over the batch. -/
theorem C3_rmse_is_sqrt_mse (p y : Tensor) (i : ℕ)
    (_hsh : p.shape = y.shape) (_hdim : 2 ≤ y.shape.length)
    (hi : i < (MSEMetric.compute_metric p y).data.length) :
    (RMSEMetric.compute_metric p y).getD i 0
      = Real.sqrt (((MSEMetric.compute_metric p y).data.getD i 0 : ℚ) : ℝ) := by
  unfold RMSEMetric.compute_metric
  unfold MSEMetric.compute_metric at hi ⊢
  have hlen : i < ((compute_mean_error_metrics p y sq_func).data.map
      (fun m => Real.sqrt ((m : ℚ) : ℝ))).length := by
    rw [List.length_map]
    exact hi
  rw [List.getD_eq_getElem _ _ hlen, List.getElem_map,
    List.getD_eq_getElem _ _ hi]

/-- Witness for C3: the concrete constant (1,1,2,2) tensors at batch index 0. -/
theorem C3_rmse_is_sqrt_mse_witness :
    (RMSEMetric.compute_metric ⟨[1,1,2,2], [1,1,1,1]⟩ ⟨[1,1,2,2], [3,3,3,3]⟩).getD 0 0
      = Real.sqrt (((MSEMetric.compute_metric ⟨[1,1,2,2], [1,1,1,1]⟩
          ⟨[1,1,2,2], [3,3,3,3]⟩).data.getD 0 0 : ℚ) : ℝ) :=
  C3_rmse_is_sqrt_mse ⟨[1,1,2,2], [1,1,1,1]⟩ ⟨[1,1,2,2], [3,3,3,3]⟩ 0
    rfl (by decide) (by decide)

/-- C5: the MSE and MAE per-sample tensors are symmetric in their two
arguments for equal-shaped inputs. -/
theorem C5_symmetry (p y : Tensor) (_hdim : 2 ≤ y.shape.length)
    (hsh : p.shape = y.shape) :
    MSEMetric.compute_metric p y = MSEMetric.compute_metric y p ∧
    MAEMetric.compute_metric p y = MAEMetric.compute_metric y p :=
  ⟨compute_mean_error_symm p y sq_func
      (fun a b => by unfold sq_func; ring) hsh,
   compute_mean_error_symm p y abs_func
      (fun a b => by unfold abs_func; exact abs_sub_comm a b) hsh⟩

/-- Witness for C5: distinct concrete (2,2)-shaped tensors. -/
theorem C5_symmetry_witness :
    MSEMetric.compute_metric ⟨[2,2], [1,2,3,4]⟩ ⟨[2,2], [5,0,7,1]⟩
      = MSEMetric.compute_metric ⟨[2,2], [5,0,7,1]⟩ ⟨[2,2], [1,2,3,4]⟩ ∧
    MAEMetric.compute_metric ⟨[2,2], [1,2,3,4]⟩ ⟨[2,2], [5,0,7,1]⟩
      = MAEMetric.compute_metric ⟨[2,2], [5,0,7,1]⟩ ⟨[2,2], [1,2,3,4]⟩ :=
  C5_symmetry ⟨[2,2], [1,2,3,4]⟩ ⟨[2,2], [5,0,7,1]⟩ (by decide) rfl

/-- C6: with identical prediction and target, every per-sample MSE value and
every per-sample MAE value is zero. -/
theorem C6_zero_on_self (p : Tensor) (_hdim : 2 ≤ p.shape.length) (i : ℕ)
    (_hi : i < p.shape.headD 0) :
    (MSEMetric.compute_metric p p).data.getD i 0 = 0 ∧
    (MAEMetric.compute_metric p p).data.getD i 0 = 0 :=
  ⟨compute_mean_error_self p sq_func (by unfold sq_func; norm_num) i,
   compute_mean_error_self p abs_func (by unfold abs_func; norm_num) i⟩

/-- Witness for C6: a concrete (2,2)-shaped tensor at batch index 1. -/
theorem C6_zero_on_self_witness :
    (MSEMetric.compute_metric ⟨[2,2], [1,2,3,4]⟩ ⟨[2,2], [1,2,3,4]⟩).data.getD 1 0 = 0 ∧
    (MAEMetric.compute_metric ⟨[2,2], [1,2,3,4]⟩ ⟨[2,2], [1,2,3,4]⟩).data.getD 1 0 = 0 :=
  C6_zero_on_self ⟨[2,2], [1,2,3,4]⟩ (by decide) 1 (by decide)

/-- C9: the adapter module imports MSEMetricTraining and MAEMetricTraining
from the metrics module, which defines neither, so the import fails and none
of the handler classes come into existence. -/
theorem C9_import_failure :
    ¬ ("MSEMetricTraining" ∈ regression_module_defs) ∧
    ¬ ("MAEMetricTraining" ∈ regression_module_defs) ∧
    handlers_module_loads = false ∧
    handlers_defined_classes = [] :=
  ⟨by decide, by decide, by decide, by decide⟩

/-- C4: the PSNR per-sample value is 20·log10(max_val) − 10·log10(MSE) for a
nonzero per-sample MSE, and with identical prediction and target (zero MSE) it
is positive infinity under IEEE semantics, not an error and not clamped. -/
theorem C4_psnr_formula (maxVal : ℚ) (p y : Tensor) (i : ℕ)
    (_hmax : 0 < maxVal) (_hsh : p.shape = y.shape) (_hdim : 2 ≤ y.shape.length)
    (hi : i < (compute_mean_error_metrics p y sq_func).data.length) :
    ((compute_mean_error_metrics p y sq_func).data.getD i 0 ≠ 0 →
      (PSNRMetric.compute_metric maxVal p y).getD i 0
        = ((20 * log10 ((maxVal : ℚ) : ℝ)
            - 10 * log10 (((compute_mean_error_metrics p y sq_func).data.getD i 0 : ℚ) : ℝ) : ℝ)
           : EReal)) ∧
    (p = y → (PSNRMetric.compute_metric maxVal p y).getD i 0 = ⊤) := by
  have hlen : i < ((compute_mean_error_metrics p y sq_func).data.map
      (fun m => ((20 * log10 ((maxVal : ℚ) : ℝ) : ℝ) : EReal)
        - ((10 : ℝ) : EReal) * ieeeLog10 m)).length := by
    rw [List.length_map]
    exact hi
  have key : (PSNRMetric.compute_metric maxVal p y).getD i 0
      = ((20 * log10 ((maxVal : ℚ) : ℝ) : ℝ) : EReal)
        - ((10 : ℝ) : EReal)
          * ieeeLog10 ((compute_mean_error_metrics p y sq_func).data.getD i 0) := by
    unfold PSNRMetric.compute_metric
    rw [List.getD_eq_getElem _ _ hlen, List.getElem_map, List.getD_eq_getElem _ _ hi]
  constructor
  · intro hm
    rw [key]
    unfold ieeeLog10
    rw [if_neg hm, ← EReal.coe_mul, ← EReal.coe_sub]
  · intro hpy
    subst hpy
    rw [key, compute_mean_error_self p sq_func (by unfold sq_func; norm_num) i]
    unfold ieeeLog10
    rw [if_pos rfl, EReal.coe_mul_bot_of_pos (by norm_num), EReal.coe_sub_bot]

/-- Witness for C4: identical (1,2)-shaped tensors with max_val 255 at batch
index 0. -/
theorem C4_psnr_formula_witness :
    ((compute_mean_error_metrics ⟨[1,2],[5,7]⟩ ⟨[1,2],[5,7]⟩ sq_func).data.getD 0 0 ≠ 0 →
      (PSNRMetric.compute_metric 255 ⟨[1,2],[5,7]⟩ ⟨[1,2],[5,7]⟩).getD 0 0
        = ((20 * log10 (((255 : ℚ) : ℚ) : ℝ)
            - 10 * log10 (((compute_mean_error_metrics ⟨[1,2],[5,7]⟩ ⟨[1,2],[5,7]⟩
                sq_func).data.getD 0 0 : ℚ) : ℝ) : ℝ) : EReal)) ∧
    ((⟨[1,2],[5,7]⟩ : Tensor) = ⟨[1,2],[5,7]⟩ →
      (PSNRMetric.compute_metric 255 ⟨[1,2],[5,7]⟩ ⟨[1,2],[5,7]⟩).getD 0 0 = ⊤) :=
  C4_psnr_formula 255 ⟨[1,2],[5,7]⟩ ⟨[1,2],[5,7]⟩ 0
    (by decide) rfl (by decide) (by decide)

/-- C7: on the constant tensors P = 1 and Y = 3 of shape (1,1,2,2) with
reduction mean, MSE returns 4.0, MAE returns 2.0, RMSE returns 2.0, and PSNR
with max_val 255 returns 20·log10(255) − 10·log10(4), each with a not-NaN
count of 1. -/
theorem C7_concrete_scenario :
    MSEMetric.call .MEAN ⟨[1,1,2,2], [1,1,1,1]⟩ ⟨[1,1,2,2], [3,3,3,3]⟩
      = .ok (⟨[], [4]⟩, ⟨[], [1]⟩) ∧
    MAEMetric.call .MEAN ⟨[1,1,2,2], [1,1,1,1]⟩ ⟨[1,1,2,2], [3,3,3,3]⟩
      = .ok (⟨[], [2]⟩, ⟨[], [1]⟩) ∧
    RMSEMetric.call .MEAN ⟨[1,1,2,2], [1,1,1,1]⟩ ⟨[1,1,2,2], [3,3,3,3]⟩
      = .ok ([(2 : ℝ)], [(1 : ℚ)]) ∧
    PSNRMetric.call 255 .MEAN ⟨[1,1,2,2], [1,1,1,1]⟩ ⟨[1,1,2,2], [3,3,3,3]⟩
      = .ok ([((20 * log10 (255 : ℝ) - 10 * log10 (4 : ℝ) : ℝ) : EReal)], [(1 : ℚ)]) := by
  have hcs : check_shape ⟨[1,1,2,2], [1,1,1,1]⟩ ⟨[1,1,2,2], [3,3,3,3]⟩ = .ok () := rfl
  have hsq : compute_mean_error_metrics ⟨[1,1,2,2], [1,1,1,1]⟩
      ⟨[1,1,2,2], [3,3,3,3]⟩ sq_func = ⟨[1,1], [4]⟩ := by
    simp [compute_mean_error_metrics, Tensor.meanLastKeepdim, Tensor.flatten1,
      Tensor.emap, Tensor.sub, sq_func, List.range_succ, List.getD]
    norm_num
  have habs : compute_mean_error_metrics ⟨[1,1,2,2], [1,1,1,1]⟩
      ⟨[1,1,2,2], [3,3,3,3]⟩ abs_func = ⟨[1,1], [2]⟩ := by
    simp [compute_mean_error_metrics, Tensor.meanLastKeepdim, Tensor.flatten1,
      Tensor.emap, Tensor.sub, abs_func, List.range_succ, List.getD]
    norm_num
  refine ⟨?_, ?_, ?_, ?_⟩
  · have hsq2 : MSEMetric.compute_metric ⟨[1,1,2,2], [1,1,1,1]⟩
        ⟨[1,1,2,2], [3,3,3,3]⟩ = ⟨[1,1], [4]⟩ := hsq
    simp only [MSEMetric.call, hcs, hsq2]
    simp [do_metric_reduction]
  · have habs2 : MAEMetric.compute_metric ⟨[1,1,2,2], [1,1,1,1]⟩
        ⟨[1,1,2,2], [3,3,3,3]⟩ = ⟨[1,1], [2]⟩ := habs
    simp only [MAEMetric.call, hcs, habs2]
    simp [do_metric_reduction]
  · have hr : RMSEMetric.compute_metric ⟨[1,1,2,2], [1,1,1,1]⟩
        ⟨[1,1,2,2], [3,3,3,3]⟩ = [(2 : ℝ)] := by
      unfold RMSEMetric.compute_metric
      rw [hsq]
      show [Real.sqrt (((4 : ℚ) : ℝ))] = [(2 : ℝ)]
      rw [show (((4 : ℚ) : ℝ)) = (2 : ℝ) ^ 2 by norm_num, Real.sqrt_sq (by norm_num)]
    simp only [RMSEMetric.call, hcs, hr]
    simp [reduce_real_column]
  · have hp : PSNRMetric.compute_metric 255 ⟨[1,1,2,2], [1,1,1,1]⟩
        ⟨[1,1,2,2], [3,3,3,3]⟩
        = [((20 * log10 (255 : ℝ) - 10 * log10 (4 : ℝ) : ℝ) : EReal)] := by
      unfold PSNRMetric.compute_metric
      rw [hsq]
      show [((20 * log10 (((255 : ℚ)) : ℝ) : ℝ) : EReal)
              - ((10 : ℝ) : EReal) * ieeeLog10 4]
          = [((20 * log10 (255 : ℝ) - 10 * log10 (4 : ℝ) : ℝ) : EReal)]
      unfold ieeeLog10
      rw [if_neg (by norm_num), ← EReal.coe_mul, ← EReal.coe_sub]
      norm_num
    simp only [PSNRMetric.call, hcs, hp]
    simp [reduce_ereal_column]

/-- C8: each of the four iteration-adapter handlers constructs its metric with
reduction mode none, and its per-iteration step applies the output transform
to the engine output and appends the unreduced per-sample tensor (paired with
its all-ones not-NaN count) to the accumulated sequence. -/
theorem C8_handlers_use_reduction_none {ω : Type} (t : ω → Tensor × Tensor)
    (o : ω) (maxVal : ℚ) (acc1 acc2 : List (Tensor × Tensor))
    (acc3 : List (List ℝ × List ℚ)) (acc4 : List (List EReal × List ℚ))
    (hsh : (t o).1.shape = (t o).2.shape) (hdim : 2 ≤ (t o).1.shape.length) :
    (MeanSquaredError.handler t).metricReduction = .NONE ∧
    (MeanAbsoluteError.handler t).metricReduction = .NONE ∧
    (RootMeanSquaredError.handler t).metricReduction = .NONE ∧
    (PeakSignalToNoiseRatio.handler maxVal t).metricReduction = .NONE ∧
    (MeanSquaredError.handler t).step acc1 o
      = .ok (acc1 ++ [(MSEMetric.compute_metric (t o).1 (t o).2,
          ⟨(MSEMetric.compute_metric (t o).1 (t o).2).shape,
           (MSEMetric.compute_metric (t o).1 (t o).2).data.map (fun _ => 1)⟩)]) ∧
    (MeanAbsoluteError.handler t).step acc2 o
      = .ok (acc2 ++ [(MAEMetric.compute_metric (t o).1 (t o).2,
          ⟨(MAEMetric.compute_metric (t o).1 (t o).2).shape,
           (MAEMetric.compute_metric (t o).1 (t o).2).data.map (fun _ => 1)⟩)]) ∧
    (RootMeanSquaredError.handler t).step acc3 o
      = .ok (acc3 ++ [(RMSEMetric.compute_metric (t o).1 (t o).2,
          (RMSEMetric.compute_metric (t o).1 (t o).2).map (fun _ => (1 : ℚ)))]) ∧
    (PeakSignalToNoiseRatio.handler maxVal t).step acc4 o
      = .ok (acc4 ++ [(PSNRMetric.compute_metric maxVal (t o).1 (t o).2,
          (PSNRMetric.compute_metric maxVal (t o).1 (t o).2).map (fun _ => (1 : ℚ)))]) := by
  have hok : check_shape (t o).1 (t o).2 = .ok () := check_shape_ok _ _ hsh hdim
  refine ⟨rfl, rfl, rfl, rfl, ?_, ?_, ?_, ?_⟩
  · simp [MeanSquaredError.handler, IterationHandler.step, MSEMetric.call, hok,
      do_metric_reduction]
  · simp [MeanAbsoluteError.handler, IterationHandler.step, MAEMetric.call, hok,
      do_metric_reduction]
  · simp [RootMeanSquaredError.handler, IterationHandler.step, RMSEMetric.call, hok,
      reduce_real_column]
  · simp [PeakSignalToNoiseRatio.handler, IterationHandler.step, PSNRMetric.call, hok,
      reduce_ereal_column]

/-- Witness for C8: the trivial engine-output type with a transform yielding
concrete (1,2)-shaped tensors and empty accumulators. -/
theorem C8_handlers_use_reduction_none_witness :
    (MeanSquaredError.handler (fun _ : Unit => ((⟨[1,2],[1,2]⟩ : Tensor), (⟨[1,2],[3,5]⟩ : Tensor)))).metricReduction = .NONE ∧
    (MeanAbsoluteError.handler (fun _ : Unit => ((⟨[1,2],[1,2]⟩ : Tensor), (⟨[1,2],[3,5]⟩ : Tensor)))).metricReduction = .NONE ∧
    (RootMeanSquaredError.handler (fun _ : Unit => ((⟨[1,2],[1,2]⟩ : Tensor), (⟨[1,2],[3,5]⟩ : Tensor)))).metricReduction = .NONE ∧
    (PeakSignalToNoiseRatio.handler 255 (fun _ : Unit => ((⟨[1,2],[1,2]⟩ : Tensor), (⟨[1,2],[3,5]⟩ : Tensor)))).metricReduction = .NONE ∧
    (MeanSquaredError.handler (fun _ : Unit => ((⟨[1,2],[1,2]⟩ : Tensor), (⟨[1,2],[3,5]⟩ : Tensor)))).step [] ()
      = .ok ([] ++ [(MSEMetric.compute_metric ⟨[1,2],[1,2]⟩ ⟨[1,2],[3,5]⟩,
          ⟨(MSEMetric.compute_metric ⟨[1,2],[1,2]⟩ ⟨[1,2],[3,5]⟩).shape,
           (MSEMetric.compute_metric ⟨[1,2],[1,2]⟩ ⟨[1,2],[3,5]⟩).data.map (fun _ => 1)⟩)]) ∧
    (MeanAbsoluteError.handler (fun _ : Unit => ((⟨[1,2],[1,2]⟩ : Tensor), (⟨[1,2],[3,5]⟩ : Tensor)))).step [] ()
      = .ok ([] ++ [(MAEMetric.compute_metric ⟨[1,2],[1,2]⟩ ⟨[1,2],[3,5]⟩,
          ⟨(MAEMetric.compute_metric ⟨[1,2],[1,2]⟩ ⟨[1,2],[3,5]⟩).shape,
           (MAEMetric.compute_metric ⟨[1,2],[1,2]⟩ ⟨[1,2],[3,5]⟩).data.map (fun _ => 1)⟩)]) ∧
    (RootMeanSquaredError.handler (fun _ : Unit => ((⟨[1,2],[1,2]⟩ : Tensor), (⟨[1,2],[3,5]⟩ : Tensor)))).step [] ()
      = .ok ([] ++ [(RMSEMetric.compute_metric ⟨[1,2],[1,2]⟩ ⟨[1,2],[3,5]⟩,
          (RMSEMetric.compute_metric ⟨[1,2],[1,2]⟩ ⟨[1,2],[3,5]⟩).map (fun _ => (1 : ℚ)))]) ∧
    (PeakSignalToNoiseRatio.handler 255 (fun _ : Unit => ((⟨[1,2],[1,2]⟩ : Tensor), (⟨[1,2],[3,5]⟩ : Tensor)))).step [] ()
      = .ok ([] ++ [(PSNRMetric.compute_metric 255 ⟨[1,2],[1,2]⟩ ⟨[1,2],[3,5]⟩,
          (PSNRMetric.compute_metric 255 ⟨[1,2],[1,2]⟩ ⟨[1,2],[3,5]⟩).map (fun _ => (1 : ℚ)))]) :=
  C8_handlers_use_reduction_none
    (fun _ : Unit => ((⟨[1,2],[1,2]⟩ : Tensor), (⟨[1,2],[3,5]⟩ : Tensor)))
    () 255 [] [] [] [] rfl (by decide)
